import Mathlib

/-!
Shallow embedding of the task-manager backend (src/app/main.py and
src/app/models.py) and verification of its specification claims.

Conventions of the embedding:
- MongoDB ObjectIds are modelled as natural numbers; the string form used in
  task documents (str(ObjectId)) is their decimal rendering.
- Datetimes are modelled as natural numbers.  The stored due_date field is a
  BSON Date: models.py line 39 declares Optional[datetime], pydantic parses
  the client string into a datetime and the driver stores it as a Date.  The
  due_date query parameter of get_tasks, in contrast, is a raw string
  (main.py line 183) placed as-is into the query (line 196).  The BsonVal
  type keeps the two BSON types apart; Mongo equality filters never equate
  values of different BSON types, so a Date (or null) field never matches a
  string query value.
- The document store is a pair of in-memory lists; find_one returns the first
  matching document in insertion order, update_one / delete_one act on the
  first match, mirroring MongoDB natural order on these collections.
- Each FastAPI handler body is a pure function returning Except; the blanket
  "except Exception as e: raise HTTPException(500, str(e))" present in every
  handler of main.py is modelled by the guard functions below.  Note that
  fastapi.HTTPException derives from Exception, so an HTTPException raised
  inside the try block of a handler is itself caught and re-raised as a 500.
- FastAPI request-body validation (pydantic) happens before the handler body
  runs and is therefore outside the try/except; it is modelled by the
  validate functions, which produce status 422 on failure.
-/

/-- An HTTP error as raised by fastapi.HTTPException: a status code and a
detail string. -/
inductive HTTPExc where
  | http (statusCode : Nat) (detail : String)
deriving DecidableEq, Repr

/-- The str() rendering of an HTTPException, used when the blanket handler
re-raises it with status 500. -/
def excStr : HTTPExc → String
  | .http code detail => toString code ++ ": " ++ detail

/-- Model of the blanket except-clause of the handlers in main.py: any
exception escaping the try block, including an HTTPException raised inside
it, is re-raised as HTTPException(500, str(e)). -/
def guardExc {α : Type} : Except HTTPExc α → Except HTTPExc α
  | .ok v => .ok v
  | .error e => .error (.http 500 (excStr e))

/-- Same blanket except-clause for handlers that also thread the store
state. -/
def guardExcSt {α σ : Type} : Except HTTPExc α × σ → Except HTTPExc α × σ
  | (.ok v, s) => (.ok v, s)
  | (.error e, s) => (.error (.http 500 (excStr e)), s)

/-- HTTP status observed by the client for a handler outcome: 200 for a
normal return, otherwise the status carried by the HTTPException. -/
def statusOf {α : Type} : Except HTTPExc α → Nat
  | .ok _ => 200
  | .error (.http code _) => code

/-! Password hasher and token issuer.  These live in auth.py, which is not
under src/; they are modelled from the specification. -/

/-- Modelled from the spec: a password digest produced by the Password Hasher
of auth.py (not under src/).  Per spec section 4.1 the hash is a salted
one-way transform: the digest determines which plaintext it verifies against,
and the same plaintext under different salts yields different digests. -/
structure Digest where
  ofPlain : String
  salt : Nat
deriving DecidableEq, Repr

/-- Modelled from the spec: Hasher.hash of auth.py (not under src/), spec
section 4.1; the salt varies per call and is threaded explicitly. -/
def get_password_hash (plaintext : String) (salt : Nat) : Digest :=
  { ofPlain := plaintext, salt := salt }

/-- Modelled from the spec: Hasher.verify of auth.py (not under src/), spec
section 4.1; a digest verifies exactly against the plaintext it was derived
from. -/
def verify_password (plaintext : String) (digest : Digest) : Bool :=
  plaintext == digest.ofPlain

/-- Modelled from the spec: a bearer token issued by the Token Issuer of
auth.py (not under src/), spec section 4.2; only the subject claim is
relevant to the claims considered here. -/
structure AccessToken where
  sub : String
deriving DecidableEq, Repr

/-- Modelled from the spec: create_access_token of auth.py (not under src/),
called in main.py with data = a dict holding the subject claim. -/
def create_access_token (sub : String) : AccessToken :=
  { sub := sub }

/-! Data model, from src/app/models.py and the document shapes built in
src/app/main.py. -/

/-- Request body of POST /api/auth/register (models.py, UserCreate). -/
structure UserCreate where
  username : String
  firstName : String
  lastName : String
  email : String
  phoneNumber : String
  password : String
deriving DecidableEq, Repr

/-- A user document as stored in the users collection (main.py lines 50-59). -/
structure UserDoc where
  oid : Nat
  username : String
  firstName : String
  lastName : String
  email : String
  phoneNumber : String
  hashed_password : Digest
  created_at : Nat
deriving DecidableEq, Repr

/-- The dict literally returned by register_user (main.py lines 65-73),
before response_model filtering. -/
structure RegisterReturn where
  id : String
  username : String
  firstName : String
  lastName : String
  email : String
  phoneNumber : String
  created_at : Nat
deriving DecidableEq, Repr

/-- The public User response model (models.py lines 13-29): UserBase
contributes email; User adds id and created_at.  No other field exists on
this model. -/
structure UserModel where
  email : String
  id : String
  created_at : Nat
deriving DecidableEq, Repr

/-- FastAPI validating the handler return value against response_model=User:
pydantic keeps exactly the fields declared on the model. -/
def toUserModel (r : RegisterReturn) : UserModel :=
  { email := r.email, id := r.id, created_at := r.created_at }

/-- A rendered JSON scalar, for stating which fields a response body
carries. -/
inductive JVal where
  | str (s : String)
  | num (n : Nat)
  | bool (b : Bool)
  | null
deriving DecidableEq, Repr

/-- Serialization of the User response model, field for field in declaration
order (models.py: email from UserBase, then id, created_at). -/
def serializeUser (u : UserModel) : List (String × JVal) :=
  [("email", JVal.str u.email), ("id", JVal.str u.id),
   ("created_at", JVal.num u.created_at)]

/-- The JSON body of a successful registration response: the handler return
dict filtered through response_model=User, then serialized. -/
def registerResponseBody (r : RegisterReturn) : List (String × JVal) :=
  serializeUser (toUserModel r)

/-- Login request body; main.py reads credentials as a raw dict with keys
emailOrUsername and password (lines 81-82). -/
structure Credentials where
  emailOrUsername : String
  password : String
deriving DecidableEq, Repr

/-- Response model Token (models.py lines 6-8). -/
structure TokenResp where
  access_token : AccessToken
  token_type : String
deriving DecidableEq, Repr

/-- A BSON scalar value as relevant to the due_date comparison: Motor stores
the pydantic datetime of TaskBase.due_date (models.py line 39) as a BSON
Date, while get_tasks puts the raw query string into the filter (main.py
lines 183 and 196).  Mongo equality filters never equate values of different
BSON types, which the derived equality reflects: a date never equals a
str. -/
inductive BsonVal where
  | str (s : String)
  | date (t : Nat)
  | null
deriving DecidableEq, Repr

/-- The BSON value stored in a document's due_date field: a Date when the
task carries a due date, null otherwise. -/
def bsonOfDueDate : Option Nat → BsonVal
  | some t => BsonVal.date t
  | none => BsonVal.null

/-- A task document as stored in the tasks collection.  create_task inserts
task.dict() plus user_id, created_at and _id (main.py lines 115-118): the
completed and updated_at fields are NOT part of that document (TaskCreate has
neither), so both are Option with none meaning the field is absent from the
stored document; an update can later set them.  due_date holds the datetime
of models.py line 39 (a BSON Date at rest, null when absent). -/
structure TaskDoc where
  oid : Nat
  user_id : String
  title : String
  description : Option String
  category : Option String
  priority : Option String
  due_date : Option Nat
  completed : Option Bool
  created_at : Nat
  updated_at : Option Nat
deriving DecidableEq, Repr

/-- Raw JSON body of POST /api/tasks before pydantic validation; some for a
supplied field, none for an absent one.  A supplied due_date is the datetime
pydantic parses from the client string. -/
structure TaskCreatePayload where
  title : Option String := none
  description : Option String := none
  category : Option String := none
  priority : Option String := none
  due_date : Option Nat := none
deriving DecidableEq, Repr

/-- The validated TaskCreate model (models.py lines 34-42): title required,
the other fields optional, priority defaulting to "medium" when absent,
due_date a parsed datetime. -/
structure TaskCreate where
  title : String
  description : Option String
  category : Option String
  priority : Option String
  due_date : Option Nat
deriving DecidableEq, Repr

/-- Pydantic validation of a TaskCreate body: title is required (a missing
required field is a 422 validation error, raised by FastAPI before the
handler runs); priority defaults to "medium" when not supplied. -/
def validateTaskCreate (p : TaskCreatePayload) : Except HTTPExc TaskCreate :=
  match p.title with
  | none => .error (.http 422 "field required: title")
  | some t =>
      .ok { title := t, description := p.description, category := p.category,
            priority := some (p.priority.getD "medium"), due_date := p.due_date }

/-- Raw JSON body of PUT /api/tasks/{id} before pydantic validation.
TaskUpdate (models.py lines 44-45) extends TaskBase with completed; a field
is some when the client supplied it.  dict(exclude_unset=True) in the handler
keeps exactly the supplied fields, so the payload itself carries the
information the handler consumes. -/
structure TaskUpdatePayload where
  title : Option String := none
  description : Option String := none
  category : Option String := none
  priority : Option String := none
  due_date : Option Nat := none
  completed : Option Bool := none
deriving DecidableEq, Repr

/-- Pydantic validation of a TaskUpdate body: TaskUpdate inherits the
required title field from TaskBase (models.py line 35), so a body without
title is rejected with a 422 validation error before the handler runs. -/
def validateTaskUpdate (p : TaskUpdatePayload) : Except HTTPExc TaskUpdatePayload :=
  match p.title with
  | none => .error (.http 422 "field required: title")
  | some _ => .ok p

/-- The Task response model (models.py lines 47-52) as rendered for
create_task and update_task responses: completed has pydantic default False,
so a stored document lacking the field serializes with completed = false. -/
structure TaskResp where
  id : String
  user_id : String
  title : String
  description : Option String
  category : Option String
  priority : Option String
  due_date : Option Nat
  completed : Bool
  created_at : Nat
  updated_at : Option Nat
deriving DecidableEq, Repr

/-- FastAPI validating a task document against response_model=Task after the
handler replaced _id by its string form (main.py lines 123 and 153). -/
def taskResponse (d : TaskDoc) : TaskResp :=
  { id := toString d.oid, user_id := d.user_id, title := d.title,
    description := d.description, category := d.category,
    priority := d.priority, due_date := d.due_date,
    completed := d.completed.getD false, created_at := d.created_at,
    updated_at := d.updated_at }

/-- The two logical collections of the store (db.users and db.tasks). -/
structure DB where
  users : List UserDoc
  tasks : List TaskDoc
deriving DecidableEq, Repr

/-- Mongo update_one: rewrite the first document matching the filter, leave
every other document unchanged. -/
def updateOne {α : Type} (q : α → Bool) (f : α → α) : List α → List α
  | [] => []
  | x :: xs => if q x then f x :: xs else x :: updateOne q f xs

/-! Handlers, from src/app/main.py. -/

/-- Body of register_user (main.py lines 44-73): check the email via
find_one, insert the new user document, return the seven-field dict. -/
def register_user_body (db : DB) (newOid now salt : Nat) (user : UserCreate) :
    Except HTTPExc RegisterReturn × DB :=
  match db.users.find? (fun v => v.email == user.email) with
  | some _ => (.error (.http 400 "Email already registered"), db)
  | none =>
      let doc : UserDoc :=
        { oid := newOid, username := user.username, firstName := user.firstName,
          lastName := user.lastName, email := user.email,
          phoneNumber := user.phoneNumber,
          hashed_password := get_password_hash user.password salt,
          created_at := now }
      (.ok { id := toString newOid, username := user.username,
             firstName := user.firstName, lastName := user.lastName,
             email := user.email, phoneNumber := user.phoneNumber,
             created_at := now },
       { db with users := db.users ++ [doc] })

/-- POST /api/auth/register (main.py lines 42-76), with the blanket
except-clause applied: a 400 raised inside the try block surfaces as 500. -/
def register_user (db : DB) (newOid now salt : Nat) (user : UserCreate) :
    Except HTTPExc RegisterReturn × DB :=
  guardExcSt (register_user_body db newOid now salt user)

/-- Body of login (main.py lines 80-108): find_one on email OR username,
verify the password, issue a token whose subject is the stored email. -/
def login_body (db : DB) (cred : Credentials) : Except HTTPExc TokenResp :=
  match db.users.find? (fun v =>
      v.email == cred.emailOrUsername || v.username == cred.emailOrUsername) with
  | none => .error (.http 401 "Incorrect email/username or password")
  | some u =>
      if verify_password cred.password u.hashed_password then
        .ok { access_token := create_access_token u.email, token_type := "bearer" }
      else
        .error (.http 401 "Incorrect email/username or password")

/-- POST /api/auth/login (main.py lines 78-111), with the blanket
except-clause applied: the 401 raised inside the try block surfaces as 500. -/
def login (db : DB) (cred : Credentials) : Except HTTPExc TokenResp :=
  guardExc (login_body db cred)

/-- Body of create_task (main.py lines 114-124): insert task.dict() plus
user_id, created_at and _id, re-fetch the inserted document and return it. -/
def create_task_body (db : DB) (user : UserDoc) (newOid now : Nat)
    (task : TaskCreate) : Except HTTPExc TaskResp × DB :=
  let doc : TaskDoc :=
    { oid := newOid, user_id := toString user.oid, title := task.title,
      description := task.description, category := task.category,
      priority := task.priority, due_date := task.due_date,
      completed := none, created_at := now, updated_at := none }
  let db' : DB := { db with tasks := db.tasks ++ [doc] }
  match db'.tasks.find? (fun t => t.oid == newOid) with
  | some d => (.ok (taskResponse d), db')
  | none => (.error (.http 500 "inserted task not found"), db')

/-- POST /api/tasks (main.py lines 112-126): pydantic validation of the body,
then the handler under the blanket except-clause. -/
def create_task_endpoint (db : DB) (user : UserDoc) (newOid now : Nat)
    (p : TaskCreatePayload) : Except HTTPExc TaskResp × DB :=
  match validateTaskCreate p with
  | .error e => (.error e, db)
  | .ok task => guardExcSt (create_task_body db user newOid now task)

/-- Mongo $set of exactly the fields present in the exclude_unset dict of a
TaskUpdate payload, plus updated_at (main.py lines 144-150). -/
def applyUpdate (p : TaskUpdatePayload) (now : Nat) (d : TaskDoc) : TaskDoc :=
  { d with
    title := p.title.getD d.title,
    description := match p.description with | some v => some v | none => d.description,
    category := match p.category with | some v => some v | none => d.category,
    priority := match p.priority with | some v => some v | none => d.priority,
    due_date := match p.due_date with | some v => some v | none => d.due_date,
    completed := match p.completed with | some b => some b | none => d.completed,
    updated_at := some now }

/-- Body of update_task (main.py lines 134-154): find_one on _id AND
user_id, 404 when absent, otherwise update_one on _id with the supplied
fields plus updated_at, re-fetch on _id and return the document. -/
def update_task_body (db : DB) (user : UserDoc) (task_id : Nat)
    (p : TaskUpdatePayload) (now : Nat) : Except HTTPExc TaskResp × DB :=
  match db.tasks.find? (fun t =>
      t.oid == task_id && t.user_id == toString user.oid) with
  | none => (.error (.http 404 "Task not found"), db)
  | some _ =>
      let tasks' := updateOne (fun t => t.oid == task_id) (applyUpdate p now) db.tasks
      let db' : DB := { db with tasks := tasks' }
      match db'.tasks.find? (fun t => t.oid == task_id) with
      | some d => (.ok (taskResponse d), db')
      | none => (.error (.http 500 "updated task not found"), db')

/-- PUT /api/tasks/{id} (main.py lines 128-156): pydantic validation of the
body, then the handler under the blanket except-clause, so the 404 raised
inside the try block surfaces as 500. -/
def update_task_endpoint (db : DB) (user : UserDoc) (task_id : Nat)
    (p : TaskUpdatePayload) (now : Nat) : Except HTTPExc TaskResp × DB :=
  match validateTaskUpdate p with
  | .error e => (.error e, db)
  | .ok p' => guardExcSt (update_task_body db user task_id p' now)

/-- Body of delete_task (main.py lines 160-171): find_one on _id AND
user_id, 404 when absent, otherwise delete_one on _id. -/
def delete_task_body (db : DB) (user : UserDoc) (task_id : Nat) :
    Except HTTPExc String × DB :=
  match db.tasks.find? (fun t =>
      t.oid == task_id && t.user_id == toString user.oid) with
  | none => (.error (.http 404 "Task not found"), db)
  | some _ =>
      (.ok "Task deleted successfully",
       { db with tasks := db.tasks.eraseP (fun t => t.oid == task_id) })

/-- DELETE /api/tasks/{id} (main.py lines 158-173), with the blanket
except-clause applied: the 404 raised inside the try block surfaces as
500. -/
def delete_task (db : DB) (user : UserDoc) (task_id : Nat) :
    Except HTTPExc String × DB :=
  guardExcSt (delete_task_body db user task_id)

/-- Python truthiness test applied to an optional string query parameter in
get_tasks (main.py lines 189-196): an absent parameter and an empty string
are both falsy, so neither adds a condition to the query. -/
def strActive : Option String → Bool
  | some s => !(s == "")
  | none => false

/-- The Mongo query built by get_tasks (main.py lines 187-196) as a predicate
on stored task documents: user_id always, each filter only when its parameter
is truthy (completed is compared against None instead); a query value matches
only a document where the field is present and equal.  The due_date
condition places the raw query STRING in the filter, compared under BSON
equality against the stored Date-or-null value of the field. -/
def matchesQuery (uid : String) (category priority : Option String)
    (completed : Option Bool) (due_date : Option String) (d : TaskDoc) : Bool :=
  d.user_id == uid
  && (if strActive category then d.category == category else true)
  && (if strActive priority then d.priority == priority else true)
  && (match completed with | some b => d.completed == some b | none => true)
  && (match due_date with
      | some v => if v == "" then true else bsonOfDueDate d.due_date == BsonVal.str v
      | none => true)

/-- Response of GET /api/tasks (main.py lines 206-211); the endpoint has no
response_model, so the task documents are returned as stored (with _id
renamed to id, a renaming the embedding keeps inside TaskDoc). -/
structure TasksPage where
  tasks : List TaskDoc
  total : Nat
  page : Int
  limit : Int
deriving DecidableEq, Repr

/-- GET /api/tasks (main.py lines 175-213): skip = (page-1)*limit, count of
all matching documents, then the skip/limit window of the matching documents.
A negative skip makes the driver raise, which the blanket except-clause turns
into a 500; Mongo limit(0) means no limit and a negative limit acts like its
absolute value. -/
def get_tasks (db : DB) (user : UserDoc) (page limit : Int)
    (category priority : Option String) (completed : Option Bool)
    (due_date : Option String) : Except HTTPExc TasksPage :=
  let skip : Int := (page - 1) * limit
  let q := matchesQuery (toString user.oid) category priority completed due_date
  let matching := db.tasks.filter q
  if skip < 0 then
    .error (.http 500 "skip must be a non-negative integer")
  else
    let window := matching.drop skip.toNat
    let tasks := if limit == 0 then window else window.take limit.natAbs
    .ok { tasks := tasks, total := matching.length, page := page, limit := limit }

/-- Tasks carried by a list response, empty on error. -/
def tasksOf (r : Except HTTPExc TasksPage) : List TaskDoc :=
  match r with
  | .ok pg => pg.tasks
  | .error _ => []

/-- Total carried by a list response, zero on error. -/
def totalOf (r : Except HTTPExc TasksPage) : Nat :=
  match r with
  | .ok pg => pg.total
  | .error _ => 0

/-- Spec-side reading of the list filters, written from the specification
words for comparison with the code-side matchesQuery: filters are exact-match
AND-combined with the owner filter, every supplied value (empty or not) being
matched exactly, and the dueDate filter matching by exact stored value — the
supplied dueDate is therefore a datetime compared against the stored
datetime. -/
def exactMatchSpec (uid : String) (category priority : Option String)
    (completed : Option Bool) (due_date : Option Nat) (d : TaskDoc) : Bool :=
  d.user_id == uid
  && (match category with | some c => d.category == some c | none => true)
  && (match priority with | some v => d.priority == some v | none => true)
  && (match completed with | some b => d.completed == some b | none => true)
  && (match due_date with | some t => d.due_date == some t | none => true)

/-- Decidable equality of handler outcomes, used to evaluate the handlers on
concrete inputs. -/
instance {ε α : Type} [DecidableEq ε] [DecidableEq α] : DecidableEq (Except ε α) :=
  fun x y =>
    match x, y with
    | .ok a, .ok b =>
        if h : a = b then .isTrue (by rw [h])
        else .isFalse (by intro hc; cases hc; exact h rfl)
    | .error a, .error b =>
        if h : a = b then .isTrue (by rw [h])
        else .isFalse (by intro hc; cases hc; exact h rfl)
    | .ok _, .error _ => .isFalse (by intro hc; cases hc)
    | .error _, .ok _ => .isFalse (by intro hc; cases hc)

/-! Concrete fixtures used by the evaluation theorems below. -/

/-- A registered user with ObjectId 1. -/
def alice : UserDoc :=
  { oid := 1, username := "alice", firstName := "A", lastName := "L",
    email := "alice@example.com", phoneNumber := "111",
    hashed_password := { ofPlain := "pwA", salt := 0 }, created_at := 100 }

/-- A second registered user with ObjectId 2. -/
def bob : UserDoc :=
  { oid := 2, username := "bob", firstName := "B", lastName := "M",
    email := "bob@example.com", phoneNumber := "222",
    hashed_password := { ofPlain := "pwB", salt := 1 }, created_at := 101 }

/-- A task created by alice through create_task (so completed and updated_at
are absent from the stored document). -/
def aliceTask : TaskDoc :=
  { oid := 10, user_id := "1", title := "Alice task", description := none,
    category := some "work", priority := some "medium", due_date := none,
    completed := none, created_at := 100, updated_at := none }

/-- Store holding alice, bob and alice's task. -/
def dbAB : DB := { users := [alice, bob], tasks := [aliceTask] }

/-- Store holding only alice, with no tasks. -/
def dbA : DB := { users := [alice], tasks := [] }

/-- An empty store. -/
def emptyDB : DB := { users := [], tasks := [] }

/-- A task of alice created with a due date, stored as a BSON Date. -/
def datedTask : TaskDoc :=
  { oid := 12, user_id := "1", title := "Dated", description := none,
    category := none, priority := some "medium", due_date := some 500,
    completed := none, created_at := 100, updated_at := none }

/-- Store holding alice and her dated task. -/
def dbDated : DB := { users := [alice], tasks := [datedTask] }

/-- A valid update payload another user might send against alice's task. -/
def hackPayload : TaskUpdatePayload := { title := some "hack" }

/-- Registration payload for the duplicate-email scenario. -/
def regU1 : UserCreate :=
  { username := "u1", firstName := "F1", lastName := "L1",
    email := "dup@example.com", phoneNumber := "900", password := "p1" }

/-- Second registration payload: distinct username, same email as regU1. -/
def regU2 : UserCreate :=
  { username := "u2", firstName := "F2", lastName := "L2",
    email := "dup@example.com", phoneNumber := "901", password := "p2" }

/-- TaskCreate payload carrying only a title. -/
def buyMilk : TaskCreatePayload := { title := some "Buy milk" }

/-- C1: ownership isolation holds operationally, but the error reporting does
not match the claim: with bob's identity, alice's task is omitted by list and
is neither modified by update nor removed by delete even at its exact id, yet
update and delete answer with status 500 rather than NotFound 404, because
the blanket except-clause in main.py catches the handler's own
HTTPException(404) and re-raises it as a 500. -/
theorem foreign_task_ops_isolated_but_500 :
    tasksOf (get_tasks dbAB bob 1 10 none none none none) = []
    ∧ (update_task_endpoint dbAB bob 10 hackPayload 200).2 = dbAB
    ∧ statusOf (update_task_endpoint dbAB bob 10 hackPayload 200).1 = 500
    ∧ (delete_task dbAB bob 10).2 = dbAB
    ∧ statusOf (delete_task dbAB bob 10).1 = 500 := by
  decide

/-- C2: deleting (or updating) a nonexistent or foreign-owned task id is
answered with a server fault 500, not NotFound 404: the HTTPException(404)
raised inside the try block of delete_task and update_task is caught by their
blanket except-clause and re-raised as HTTPException(500). -/
theorem delete_missing_or_foreign_returns_500 :
    statusOf (delete_task dbAB bob 10).1 = 500
    ∧ statusOf (delete_task dbAB alice 99).1 = 500
    ∧ statusOf (update_task_endpoint dbAB bob 10 hackPayload 200).1 = 500
    ∧ statusOf (update_task_endpoint dbAB alice 99 hackPayload 200).1 = 500
    ∧ (delete_task dbAB bob 10).2 = dbAB
    ∧ (delete_task dbAB alice 99).2 = dbAB := by
  decide

/-- C3: registering the same email twice: the first registration succeeds
with status 200, but the second is answered with 500, not Conflict 400: the
HTTPException(400, detail Email already registered) raised inside the try
block of register_user is caught by its blanket except-clause and re-raised
as HTTPException(500). -/
theorem duplicate_email_second_register_500 :
    statusOf (register_user emptyDB 5 100 0 regU1).1 = 200
    ∧ statusOf (register_user (register_user emptyDB 5 100 0 regU1).2 6 101 1 regU2).1
        = 500 := by
  decide

/-- C4: a login with an unknown identifier, or with a wrong password against
either the registered email or the registered username, is answered with 500,
not Unauthenticated 401: the HTTPException(401) raised inside the try block
of login is caught by its blanket except-clause and re-raised as
HTTPException(500). -/
theorem bad_credentials_login_500 :
    statusOf (login dbAB { emailOrUsername := "alice@example.com", password := "wrong" })
        = 500
    ∧ statusOf (login dbAB { emailOrUsername := "alice", password := "wrong" }) = 500
    ∧ statusOf (login dbAB { emailOrUsername := "ghost", password := "x" }) = 500 := by
  decide

/-- C5: creating a task from a payload holding only a title returns the
response the claim describes (completed false, priority medium, id present,
user_id of the owner, created_at now, updated_at unset), but the subsequent
list with filter completed=false does NOT return the task: TaskCreate has no
completed field, so the stored document lacks it, and the Mongo equality
filter on completed=false does not match a document missing the field. -/
theorem create_then_filter_completed_false_omits :
    (create_task_endpoint dbA alice 10 200 buyMilk).1
      = .ok { id := "10", user_id := "1", title := "Buy milk",
              description := none, category := none, priority := some "medium",
              due_date := none, completed := false, created_at := 200,
              updated_at := none }
    ∧ tasksOf (get_tasks (create_task_endpoint dbA alice 10 200 buyMilk).2
        alice 1 10 none none (some false) none) = []
    ∧ (get_tasks (create_task_endpoint dbA alice 10 200 buyMilk).2
        alice 1 10 none none none none) ≠ .ok { tasks := [], total := 0, page := 1, limit := 10 } := by
  decide

/-- C6 counterexample: an update of an existing owned task with an empty
partial payload does not succeed: TaskUpdate inherits the required title
field from TaskBase, so pydantic rejects the empty body with a 422 validation
error before the handler runs, and the store is left unchanged (updated_at is
not refreshed). -/
theorem empty_update_payload_rejected_422 :
    statusOf (update_task_endpoint dbAB alice 10 {} 300).1 = 422
    ∧ (update_task_endpoint dbAB alice 10 {} 300).2 = dbAB := by
  decide

/-- C9 counterexample: with the category filter supplied as the empty string,
the list operation does not apply it as an exact-match condition: alice's
task has category work, which does not equal the supplied empty string, yet
it is returned, because the Python truthiness test in get_tasks treats an
empty string as an absent filter. -/
theorem empty_string_filter_ignored :
    tasksOf (get_tasks dbAB alice 1 10 (some "") none none none) = [aliceTask]
    ∧ (aliceTask.category == some "") = false := by
  decide

/-! General lemmas about the list primitives of the store model. -/

/-- A member satisfying the predicate that is the unique satisfier in the
list is the one find_one returns. -/
theorem find?_eq_of_unique {α : Type} (p : α → Bool) (l : List α) (u : α)
    (hmem : u ∈ l) (hu : p u = true)
    (huniq : ∀ v ∈ l, p v = true → v = u) :
    l.find? p = some u := by
  induction l with
  | nil => cases hmem
  | cons a as ih =>
      by_cases h : p a = true
      · have ha : a = u := huniq a (List.mem_cons_self a as) h
        rw [List.find?_cons_of_pos as h, ha]
      · rw [List.find?_cons_of_neg as h]
        refine ih ?_ ?_
        · rcases List.mem_cons.mp hmem with he | hm
          · exact absurd (he ▸ hu) h
          · exact hm
        · intro v hv hpv
          exact huniq v (List.mem_cons_of_mem _ hv) hpv

/-- Re-fetching on the same filter after update_one returns the rewritten
document, provided the rewrite preserves the filter. -/
theorem find?_updateOne {α : Type} (q : α → Bool) (f : α → α) (l : List α) (t : α)
    (hfind : l.find? q = some t) (hf : q (f t) = true) :
    (updateOne q f l).find? q = some (f t) := by
  induction l with
  | nil => simp [List.find?] at hfind
  | cons a as ih =>
      by_cases h : q a = true
      · rw [List.find?_cons_of_pos as h] at hfind
        have ha : a = t := by injection hfind
        subst ha
        simp only [updateOne, if_pos h]
        exact List.find?_cons_of_pos as hf
      · rw [List.find?_cons_of_neg as h] at hfind
        simp only [updateOne, if_neg h]
        rw [List.find?_cons_of_neg _ h]
        exact ih hfind

/-- Walking the skip/take windows of width L over a list, for pages 0 up to
the ceiling of length over L, reconstructs the list exactly. -/
theorem chunksJoin_aux {α : Type} (L : Nat) (hL : 0 < L) :
    ∀ (n : Nat) (l : List α), l.length ≤ n →
      (List.range ((l.length + L - 1) / L)).flatMap
        (fun i => (l.drop (i * L)).take L) = l := by
  intro n
  induction n with
  | zero =>
      intro l hl
      have h0 : l = [] := List.length_eq_zero.mp (Nat.le_zero.mp hl)
      subst h0
      have : (0 + L - 1) / L = 0 := Nat.div_eq_of_lt (by omega)
      rw [List.length_nil, this]
      simp
  | succ n ih =>
      intro l hl
      cases l with
      | nil =>
          have : (0 + L - 1) / L = 0 := Nat.div_eq_of_lt (by omega)
          rw [List.length_nil, this]
          simp
      | cons a as =>
          have hm : (a :: as).length = as.length + 1 := rfl
          have hP : ((a :: as).length + L - 1) / L = as.length / L + 1 := by
            rw [hm]
            have : as.length + 1 + L - 1 = as.length + L := by omega
            rw [this, Nat.add_div_right _ hL]
          have hQ : (((a :: as).drop L).length + L - 1) / L = as.length / L := by
            rw [List.length_drop, hm]
            by_cases hc : L ≤ as.length + 1
            · have : as.length + 1 - L + L - 1 = as.length := by omega
              rw [this]
            · have h1 : as.length + 1 - L = 0 := by omega
              rw [h1]
              have h2 : (0 + L - 1) / L = 0 := Nat.div_eq_of_lt (by omega)
              rw [h2, Nat.div_eq_of_lt (by omega)]
          rw [hP, List.range_succ_eq_map, List.flatMap_cons]
          have hshift : (List.map Nat.succ (List.range (as.length / L))).flatMap
              (fun i => ((a :: as).drop (i * L)).take L)
              = (List.range (as.length / L)).flatMap
                  (fun i => (((a :: as).drop L).drop (i * L)).take L) := by
            rw [List.flatMap_map]
            refine List.flatMap_congr ?_
            intro i _
            rw [List.drop_drop]
            have : L + i * L = Nat.succ i * L := by
              rw [Nat.succ_mul]
              omega
            rw [this]
          rw [hshift, ← hQ]
          have htail : (List.range ((((a :: as).drop L).length + L - 1) / L)).flatMap
              (fun i => (((a :: as).drop L).drop (i * L)).take L) = (a :: as).drop L := by
            refine ih _ ?_
            rw [List.length_drop, hm]
            omega
          rw [htail]
          have hzero : (0 : Nat) * L = 0 := by omega
          rw [hzero, List.drop_zero]
          exact List.take_append_drop L (a :: as)

/-- With no filter parameter supplied, the query built by get_tasks reduces
to the owner condition alone. -/
theorem matchesQuery_no_filters (uid : String) (d : TaskDoc) :
    matchesQuery uid none none none none d = (d.user_id == uid) := by
  simp [matchesQuery, strActive]

/-- C6 (amended): an update whose payload passes validation, which requires
the title field, succeeds on an existing owned task, stores exactly the
supplied fields plus a refreshed updated_at, and leaves every field the
payload does not carry unchanged; the response is the updated document.  The
two find hypotheses say that the task is the first store entry with its id
and is owned by the caller, as in any store whose task ids are unique. -/
theorem update_partial_frame (db : DB) (user : UserDoc) (t : TaskDoc)
    (p : TaskUpdatePayload) (now : Nat)
    (hfind : db.tasks.find?
        (fun x => x.oid == t.oid && x.user_id == toString user.oid) = some t)
    (hfirst : db.tasks.find? (fun x => x.oid == t.oid) = some t)
    (htitle : p.title.isSome = true) :
    update_task_endpoint db user t.oid p now
      = (.ok (taskResponse (applyUpdate p now t)),
         { db with tasks :=
            updateOne (fun x => x.oid == t.oid) (applyUpdate p now) db.tasks })
    ∧ (applyUpdate p now t).updated_at = some now
    ∧ (applyUpdate p now t).oid = t.oid
    ∧ (applyUpdate p now t).user_id = t.user_id
    ∧ (applyUpdate p now t).created_at = t.created_at
    ∧ (p.description = none → (applyUpdate p now t).description = t.description)
    ∧ (p.category = none → (applyUpdate p now t).category = t.category)
    ∧ (p.priority = none → (applyUpdate p now t).priority = t.priority)
    ∧ (p.due_date = none → (applyUpdate p now t).due_date = t.due_date)
    ∧ (p.completed = none → (applyUpdate p now t).completed = t.completed) := by
  obtain ⟨tt, htt⟩ := Option.isSome_iff_exists.mp htitle
  have hrefetch : (updateOne (fun x => x.oid == t.oid) (applyUpdate p now)
      db.tasks).find? (fun x => x.oid == t.oid) = some (applyUpdate p now t) := by
    refine find?_updateOne _ _ _ _ hfirst ?_
    simp [applyUpdate]
  refine ⟨?_, ?_, ?_, ?_, ?_, ?_, ?_, ?_, ?_, ?_⟩
  · simp only [update_task_endpoint, validateTaskUpdate, htt, update_task_body,
      hfind, hrefetch, guardExcSt]
  · simp [applyUpdate]
  · simp [applyUpdate]
  · simp [applyUpdate]
  · simp [applyUpdate]
  · intro h; simp [applyUpdate, h]
  · intro h; simp [applyUpdate, h]
  · intro h; simp [applyUpdate, h]
  · intro h; simp [applyUpdate, h]
  · intro h; simp [applyUpdate, h]

/-- Witness for the amended C6 theorem at a concrete store, task and
payload. -/
theorem update_partial_frame_witness :
    dbAB.tasks.find?
        (fun x => x.oid == aliceTask.oid && x.user_id == toString alice.oid)
      = some aliceTask
    ∧ ({ title := some "T2" } : TaskUpdatePayload).title.isSome = true
    ∧ (update_task_endpoint dbAB alice aliceTask.oid { title := some "T2" } 300).1
        = .ok (taskResponse (applyUpdate { title := some "T2" } 300 aliceTask)) := by
  refine ⟨by decide, by decide, ?_⟩
  have h := update_partial_frame dbAB alice aliceTask { title := some "T2" } 300
    (by decide) (by decide) (by decide)
  rw [h.1]

/-- C7: with no filters and a positive limit L, the reported total always
equals the count of all of the owner's tasks regardless of the pagination
window (skip is (page-1)*limit), and concatenating the task lists of pages 1
through the ceiling of total over L reconstructs the owner's full task list
with no duplicates and no omissions. -/
theorem get_tasks_pagination_covers (db : DB) (u : UserDoc) (L : Int) (hL : 0 < L) :
    (∀ page : Int, 1 ≤ page →
        totalOf (get_tasks db u page L none none none none)
          = (db.tasks.filter (fun d => d.user_id == toString u.oid)).length)
    ∧ (List.range
          (((db.tasks.filter (fun d => d.user_id == toString u.oid)).length
              + L.toNat - 1) / L.toNat)).flatMap
        (fun i => tasksOf (get_tasks db u ((i : Int) + 1) L none none none none))
      = db.tasks.filter (fun d => d.user_id == toString u.oid) := by
  have hfilter : db.tasks.filter (matchesQuery (toString u.oid) none none none none)
      = db.tasks.filter (fun d => d.user_id == toString u.oid) :=
    List.filter_congr (fun x _ => matchesQuery_no_filters (toString u.oid) x)
  have hLN : 0 < L.toNat := by omega
  have hLcast : ((L.toNat : Int)) = L := Int.toNat_of_nonneg hL.le
  have hL0 : (L == 0) = false := by
    rw [beq_eq_false_iff_ne]
    omega
  constructor
  · intro page hpage
    have hskip : ¬ ((page - 1) * L < 0) := by
      have := Int.mul_nonneg (by omega : (0:Int) ≤ page - 1) hL.le
      omega
    simp only [get_tasks, if_neg hskip, totalOf, hfilter]
  · have hpage : ∀ i : Nat,
        tasksOf (get_tasks db u ((i : Int) + 1) L none none none none)
          = ((db.tasks.filter (fun d => d.user_id == toString u.oid)).drop
              (i * L.toNat)).take L.toNat := by
      intro i
      have hskipval : ((i : Int) + 1 - 1) * L = (i : Int) * L := by ring_nf
      have hskip : ¬ (((i : Int) + 1 - 1) * L < 0) := by
        rw [hskipval]
        have := Int.mul_nonneg (by omega : (0:Int) ≤ (i : Int)) hL.le
        omega
      have htoNat : (((i : Int) + 1 - 1) * L).toNat = i * L.toNat := by
        rw [hskipval]
        nth_rewrite 1 [← hLcast]
        rw [← Int.natCast_mul, Int.toNat_natCast]
      have habs : L.natAbs = L.toNat := by omega
      simp only [get_tasks, if_neg hskip, hL0, Bool.false_eq_true, if_false, tasksOf,
        htoNat, habs, hfilter]
    rw [List.flatMap_congr (fun i _ => hpage i)]
    exact chunksJoin_aux L.toNat hLN
      (db.tasks.filter (fun d => d.user_id == toString u.oid)).length _ le_rfl

/-- Witness for the C7 theorem: limit 2 on a store holding one task of the
owner reconstructs exactly that task list. -/
theorem get_tasks_pagination_covers_witness :
    (0 : Int) < 2
    ∧ (List.range
          (((dbAB.tasks.filter (fun d => d.user_id == toString alice.oid)).length
              + (2 : Int).toNat - 1) / (2 : Int).toNat)).flatMap
        (fun i => tasksOf (get_tasks dbAB alice ((i : Int) + 1) 2 none none none none))
      = [aliceTask] := by
  refine ⟨by decide, ?_⟩
  rw [(get_tasks_pagination_covers dbAB alice 2 (by decide)).2]
  decide

/-- C8: a registered user can log in with the registered email or with the
registered username interchangeably under the correct password, and both
logins issue a bearer token whose subject claim is the user's email.  The
uniqueness hypotheses state that neither identifier also denotes some other
user, the well-formedness the spec intends (emails unique, usernames
advisory-unique). -/
theorem login_email_or_username_token_subject (db : DB) (u : UserDoc)
    (pw : String) (s : Nat)
    (hmem : u ∈ db.users)
    (hpw : u.hashed_password = get_password_hash pw s)
    (hIdE : ∀ v ∈ db.users, (v.email = u.email ∨ v.username = u.email) → v = u)
    (hIdU : ∀ v ∈ db.users, (v.email = u.username ∨ v.username = u.username) → v = u) :
    login db { emailOrUsername := u.email, password := pw }
      = .ok { access_token := { sub := u.email }, token_type := "bearer" }
    ∧ login db { emailOrUsername := u.username, password := pw }
      = .ok { access_token := { sub := u.email }, token_type := "bearer" } := by
  have hverify : verify_password pw u.hashed_password = true := by
    rw [hpw]
    simp [verify_password, get_password_hash]
  constructor
  · have hfind : db.users.find?
        (fun v => v.email == u.email || v.username == u.email) = some u := by
      refine find?_eq_of_unique _ _ _ hmem ?_ ?_
      · simp
      · intro v hv hpv
        refine hIdE v hv ?_
        simpa using hpv
    simp [login, login_body, hfind, hverify, guardExc, create_access_token]
  · have hfind : db.users.find?
        (fun v => v.email == u.username || v.username == u.username) = some u := by
      refine find?_eq_of_unique _ _ _ hmem ?_ ?_
      · simp
      · intro v hv hpv
        refine hIdU v hv ?_
        simpa using hpv
    simp [login, login_body, hfind, hverify, guardExc, create_access_token]

/-- Witness for the C8 theorem at a concrete two-user store. -/
theorem login_email_or_username_token_subject_witness :
    alice ∈ dbAB.users
    ∧ alice.hashed_password = get_password_hash "pwA" 0
    ∧ (∀ v ∈ dbAB.users, (v.email = alice.email ∨ v.username = alice.email) → v = alice)
    ∧ (∀ v ∈ dbAB.users,
        (v.email = alice.username ∨ v.username = alice.username) → v = alice)
    ∧ login dbAB { emailOrUsername := alice.email, password := "pwA" }
        = .ok { access_token := { sub := alice.email }, token_type := "bearer" }
    ∧ login dbAB { emailOrUsername := alice.username, password := "pwA" }
        = .ok { access_token := { sub := alice.email }, token_type := "bearer" } := by
  refine ⟨by decide, by decide, by decide, by decide, ?_, ?_⟩
  · exact (login_email_or_username_token_subject dbAB alice "pwA" 0
      (by decide) (by decide) (by decide) (by decide)).1
  · exact (login_email_or_username_token_subject dbAB alice "pwA" 0
      (by decide) (by decide) (by decide) (by decide)).2

/-- C9 (amended): when the supplied category and priority filters are
non-empty, the list operation applies the category, priority and completed
filters exactly as the spec states: the query predicate coincides with the
exact-match AND-combination with the owner filter, the reported total counts
exactly the documents satisfying that conjunction, and every task of any
returned page satisfies it.  Two divergences from the claim: a filter
supplied as the empty string is treated as absent by the code (Python
truthiness), and the dueDate filter does NOT match by exact stored value:
get_tasks places the raw query string in the filter while the stored field is
a BSON Date (or null), values BSON equality never equates, so any non-empty
dueDate filter matches no document at all and every page under it is empty
with total 0. -/
theorem list_filters_exact_except_duedate (db : DB) (u : UserDoc)
    (category priority : Option String) (completed : Option Bool)
    (h1 : category ≠ some "") (h2 : priority ≠ some "") :
    (∀ d, matchesQuery (toString u.oid) category priority completed none d
        = exactMatchSpec (toString u.oid) category priority completed none d)
    ∧ (∀ v : String, v ≠ "" →
        ∀ d, matchesQuery (toString u.oid) category priority completed (some v) d
          = false)
    ∧ (∀ page limit : Int, 1 ≤ page → 0 ≤ limit →
        totalOf (get_tasks db u page limit category priority completed none)
          = (db.tasks.filter
              (exactMatchSpec (toString u.oid) category priority completed none)).length
        ∧ (∀ d ∈ tasksOf (get_tasks db u page limit category priority completed none),
            exactMatchSpec (toString u.oid) category priority completed none d = true)
        ∧ (∀ v : String, v ≠ "" →
            totalOf (get_tasks db u page limit category priority completed (some v)) = 0
            ∧ tasksOf (get_tasks db u page limit category priority completed (some v))
                = [])) := by
  have hpt : ∀ d, matchesQuery (toString u.oid) category priority completed none d
      = exactMatchSpec (toString u.oid) category priority completed none d := by
    intro d
    cases category <;> cases priority <;>
      simp_all [matchesQuery, exactMatchSpec, strActive]
  have hnever : ∀ v : String, v ≠ "" →
      ∀ d, matchesQuery (toString u.oid) category priority completed (some v) d
        = false := by
    intro v hv d
    have hb : (bsonOfDueDate d.due_date == BsonVal.str v) = false := by
      cases hdd : d.due_date <;> simp [bsonOfDueDate]
    simp [matchesQuery, beq_eq_false_iff_ne.mpr hv, hb]
  refine ⟨hpt, hnever, ?_⟩
  intro page limit hpage hlimit
  have hfilter : db.tasks.filter
      (matchesQuery (toString u.oid) category priority completed none)
      = db.tasks.filter
          (exactMatchSpec (toString u.oid) category priority completed none) :=
    List.filter_congr (fun x _ => hpt x)
  have hskip : ¬ ((page - 1) * limit < 0) := by
    have := Int.mul_nonneg (by omega : (0:Int) ≤ page - 1) hlimit
    omega
  have hnil : ∀ v : String, v ≠ "" →
      db.tasks.filter
        (matchesQuery (toString u.oid) category priority completed (some v)) = [] := by
    intro v hv
    rw [List.filter_congr (fun x _ => hnever v hv x)]
    exact List.filter_false db.tasks
  refine ⟨?_, ?_, ?_⟩
  · simp only [get_tasks, if_neg hskip, totalOf, hfilter]
  · intro d hdmem
    simp only [get_tasks, if_neg hskip, tasksOf] at hdmem
    have hdin : d ∈ db.tasks.filter
        (exactMatchSpec (toString u.oid) category priority completed none) := by
      rw [← hfilter]
      by_cases hl0 : (limit == 0) = true
      · rw [if_pos hl0] at hdmem
        exact List.mem_of_mem_drop hdmem
      · rw [if_neg hl0] at hdmem
        exact List.mem_of_mem_drop (List.mem_of_mem_take hdmem)
    exact (List.mem_filter.mp hdin).2
  · intro v hv
    constructor
    · simp only [get_tasks, if_neg hskip, totalOf, hnil v hv, List.length_nil]
    · simp only [get_tasks, if_neg hskip, tasksOf, hnil v hv, List.drop_nil,
        List.take_nil, ite_self]

/-- Witness for the amended C9 theorem: a task stored with a due date (BSON
Date 500) is never returned under a dueDate filter, even one whose text
renders the same value, while the unfiltered list returns it. -/
theorem list_filters_exact_except_duedate_witness :
    ((none : Option String) ≠ some "")
    ∧ ("500" ≠ "")
    ∧ totalOf (get_tasks dbDated alice 1 10 none none none (some "500")) = 0
    ∧ tasksOf (get_tasks dbDated alice 1 10 none none none (some "500")) = []
    ∧ totalOf (get_tasks dbDated alice 1 10 none none none none) = 1 := by
  have h := (list_filters_exact_except_duedate dbDated alice none none none
    (by decide) (by decide)).2.2 1 10 (by decide) (by decide)
  exact ⟨by decide, by decide, (h.2.2 "500" (by decide)).1,
    (h.2.2 "500" (by decide)).2, by decide⟩

/-- C10: every successful registration answers with the handler's seven-field
dict filtered through response_model=User, so the response body carries
exactly the fields email, id and created_at of the new user; username,
firstName, lastName, phoneNumber and the hashed password are not exposed. -/
theorem register_response_only_public_fields (db : DB) (newOid now salt : Nat)
    (u : UserCreate) (hfree : ∀ v ∈ db.users, v.email ≠ u.email) :
    ∃ r, (register_user db newOid now salt u).1 = .ok r
      ∧ registerResponseBody r
          = [("email", JVal.str u.email), ("id", JVal.str (toString newOid)),
             ("created_at", JVal.num now)]
      ∧ (registerResponseBody r).map Prod.fst = ["email", "id", "created_at"] := by
  have hfind : db.users.find? (fun v => v.email == u.email) = none := by
    rw [List.find?_eq_none]
    intro x hx
    simpa using hfree x hx
  refine ⟨{ id := toString newOid, username := u.username, firstName := u.firstName,
            lastName := u.lastName, email := u.email, phoneNumber := u.phoneNumber,
            created_at := now }, ?_, ?_, ?_⟩
  · simp [register_user, register_user_body, hfind, guardExcSt]
  · simp [registerResponseBody, serializeUser, toUserModel]
  · simp [registerResponseBody, serializeUser, toUserModel]

/-- Witness for the C10 theorem at an empty store. -/
theorem register_response_only_public_fields_witness :
    (∀ v ∈ emptyDB.users, v.email ≠ regU1.email)
    ∧ ∃ r, (register_user emptyDB 5 100 0 regU1).1 = .ok r
        ∧ registerResponseBody r
            = [("email", JVal.str regU1.email), ("id", JVal.str (toString 5)),
               ("created_at", JVal.num 100)]
        ∧ (registerResponseBody r).map Prod.fst = ["email", "id", "created_at"] := by
  exact ⟨by decide, register_response_only_public_fields emptyDB 5 100 0 regU1 (by decide)⟩
